import Mathlib

/-!
Verification of the physical-quantity derivation logic of `src/app.py`
(a Streamlit celestial-mechanics prototype).

Python floats are modelled as exact real numbers.  A value that the code
can turn into an IEEE NaN (numpy's `np.sqrt` of a negative number, and
any arithmetic on such a NaN) is modelled by the `PyFloat.nan`
constructor; a present finite value `x` is `PyFloat.val x`.  A Python
`None` is modelled by `Option.none`.  An uncaught Python exception
(the `ZeroDivisionError` that pure-float division raises when the
divisor is `0.0`) is modelled by `Except.error ()`.
-/

/-- Gravitational constant, `G = 6.674e-11` (src/app.py line 7). -/
noncomputable def G : ℝ := 6.674e-11

/-- A Python/numpy float result: either a finite value (modelled as the
exact real the code would compute with exact arithmetic) or a NaN. -/
inductive PyFloat where
  | val (x : ℝ)
  | nan

/-- Model of `np.sqrt` applied to a finite float: NaN when the argument
is negative, otherwise the real square root. -/
noncomputable def npSqrt (x : ℝ) : PyFloat :=
  if x < 0 then PyFloat.nan else PyFloat.val (Real.sqrt x)

/-- Squaring a numpy float (`v ** 2`): NaN propagates. -/
noncomputable def pfSq : PyFloat → PyFloat
  | PyFloat.val x => PyFloat.val (x ^ 2)
  | PyFloat.nan => PyFloat.nan

/-- Dividing a numpy float by a nonzero finite float (`v / r`): NaN
propagates.  (Every use below has a nonzero divisor, guarded by the
code's `r == 0` check.) -/
noncomputable def pfDiv : PyFloat → ℝ → PyFloat
  | PyFloat.val x, r => PyFloat.val (x / r)
  | PyFloat.nan, _ => PyFloat.nan

/-- Multiplying a finite float by a numpy float (`2 * np.pi * v`): NaN
propagates. -/
noncomputable def pfScale (c : ℝ) : PyFloat → PyFloat
  | PyFloat.val x => PyFloat.val (c * x)
  | PyFloat.nan => PyFloat.nan

/-- Shallow embedding of `calculate_orbital_parameters` (src/app.py
lines 53-69).  Returns `(orbital_velocity, centripetal_acceleration,
escape_velocity, orbital_period)`.

Mirrors the source line by line: the `None` guard on mass and
semi-major axis, `GM = G * mass`, `r = semi_major_axis * (1 -
eccentricity)`, the `r == 0` early return, then the four formulas.
The one extra branch, `GM = 0 → Except.error ()`, models the uncaught
`ZeroDivisionError` that the pure-Python division
`semi_major_axis**3 / GM` on line 67 raises when `GM == 0.0`; the
divisions by `r` are unreachable with `r = 0`, and `np.sqrt` of a
negative argument yields NaN (`PyFloat.nan`), not an exception. -/
noncomputable def calculate_orbital_parameters
    (mass semi_major_axis : Option ℝ) (eccentricity : ℝ) :
    Except Unit (Option PyFloat × Option PyFloat × Option PyFloat × Option PyFloat) :=
  match mass, semi_major_axis with
  | some m, some a =>
    let GM := G * m
    let r := a * (1 - eccentricity)
    if r = 0 then Except.ok (none, none, none, none)
    else
      let orbital_velocity := npSqrt (GM / r)
      let centripetal_acceleration := pfDiv (pfSq orbital_velocity) r
      let escape_velocity := npSqrt (2 * GM / r)
      if GM = 0 then Except.error ()
      else
        let orbital_period := pfScale (2 * Real.pi) (npSqrt (a ^ 3 / GM))
        Except.ok (some orbital_velocity, some centripetal_acceleration,
                   some escape_velocity, some orbital_period)
  | _, _ => Except.ok (none, none, none, none)

/-- Orbital-velocity component of a calculator result (`none` when the
call raised or the component is absent). -/
def ovOf : Except Unit (Option PyFloat × Option PyFloat × Option PyFloat × Option PyFloat) →
    Option PyFloat
  | Except.ok (ov, _, _, _) => ov
  | Except.error _ => none

/-- Escape-velocity component of a calculator result. -/
def evOf : Except Unit (Option PyFloat × Option PyFloat × Option PyFloat × Option PyFloat) →
    Option PyFloat
  | Except.ok (_, _, ev, _) => ev
  | Except.error _ => none

/-- Orbital-period component of a calculator result. -/
def opOf : Except Unit (Option PyFloat × Option PyFloat × Option PyFloat × Option PyFloat) →
    Option PyFloat
  | Except.ok (_, _, _, op) => op
  | Except.error _ => none

/-- Raw fields of the Solar System branch (src/app.py lines 110-119),
already split out of the JSON `result`: `GM` is the numeric head of the
`GM` string when that key is present and parses as a float (a missing
key, or a parse failure caught by the `except ValueError`, both leave
the mass `None`); `a` and `e` are the values of those keys when
present (the code substitutes the string defaults "1.0" / "0.0" when
they are missing). -/
structure SolarRaw where
  GM : Option ℝ
  a : Option ℝ
  e : Option ℝ

/-- Shallow embedding of the Solar System normalization (src/app.py
lines 110-119): mass is `GM / G` when the GM value is available and
`None` otherwise; `semi_major_axis = float(result.get("a", "1.0")) *
1.496e+11`; `eccentricity = float(result.get("e", "0.0"))`.  Returns
`(mass, semi_major_axis, eccentricity)`. -/
noncomputable def normalize_solar (raw : SolarRaw) : Option ℝ × ℝ × ℝ :=
  (raw.GM.map (fun gm => gm / G),
   raw.a.getD 1.0 * 1.496e11,
   raw.e.getD 0.0)

/-- Raw fields of the Exoplanets branch (src/app.py lines 154-156):
each field is the numeric value of that key when present in
`planet_data` (the code substitutes the string defaults "1.0" / "1.0" /
"0.0" when a key is missing). -/
structure ExoRaw where
  pl_orbsmax : Option ℝ
  pl_bmassj : Option ℝ
  pl_orbeccen : Option ℝ

/-- Shallow embedding of the Exoplanets normalization (src/app.py lines
154-156): `semi_major_axis = float(get("pl_orbsmax", "1.0")) *
1.496e+11`, `mass = float(get("pl_bmassj", "1.0")) * 1.898e27`,
`eccentricity = float(get("pl_orbeccen", "0.0"))`.  Returns
`(semi_major_axis, mass, eccentricity)`. -/
noncomputable def normalize_exo (raw : ExoRaw) : ℝ × ℝ × ℝ :=
  (raw.pl_orbsmax.getD 1.0 * 1.496e11,
   raw.pl_bmassj.getD 1.0 * 1.898e27,
   raw.pl_orbeccen.getD 0.0)

/-- Modelled from the spec: the surface-gravity computation
(`G * mass / radius ** 2`, present only when mass and radius are
present and radius is nonzero) described in spec section 4.2 is not
implemented anywhere in `src/app.py` — `calculate_orbital_parameters`
neither takes a radius nor returns a surface gravity.  This definition
follows the spec's words. -/
noncomputable def surface_gravity (mass radius : Option ℝ) : Option ℝ :=
  match mass, radius with
  | some m, some rad => if rad = 0 then none else some (G * m / rad ^ 2)
  | _, _ => none

/-- Model of Python's `format(x, ".2e")` scientific rendering, used
only inside the present-value branch of the display strings below (no
theorem inspects its digits): sign, one leading digit, two rounded
decimals, and a two-digit signed exponent. -/
noncomputable def fmt2e (x : ℝ) : String :=
  if x = 0 then "0.00e+00"
  else
    let sign := if x < 0 then "-" else ""
    let e0 : ℤ := Int.floor (Real.logb 10 |x|)
    let m0 : ℤ := round (|x| / (10 : ℝ) ^ e0 * 100)
    let me : ℤ × ℤ := if 1000 ≤ m0 then (100, e0 + 1) else (m0, e0)
    let ds := toString me.1.natAbs
    let esign := if me.2 < 0 then "-" else "+"
    let eabs := me.2.natAbs
    let estr := if eabs < 10 then "0" ++ toString eabs else toString eabs
    sign ++ ds.take 1 ++ "." ++ ds.drop 1 ++ "e" ++ esign ++ estr

/-- Model of Python's `format(x, ".2f")` fixed-point rendering of a
finite float (again only used in present-value branches). -/
noncomputable def fmt2f (x : ℝ) : String :=
  let sign := if x < 0 then "-" else ""
  let n := (round (|x| * 100)).toNat
  sign ++ toString (n / 100) ++ "." ++
    (if n % 100 < 10 then "0" else "") ++ toString (n % 100)

/-- Shallow embedding of the mass display line (src/app.py line 128):
the conditional expression `f"**Mass**: {mass:.2e} kg" if mass else
"Mass unavailable"`.  Python truthiness makes both `None` and a present
`0.0` take the fallback branch. -/
noncomputable def display_mass (mass : Option ℝ) : String :=
  match mass with
  | none => "Mass unavailable"
  | some m => if m = 0 then "Mass unavailable"
              else "**Mass**: " ++ fmt2e m ++ " kg"

/-- Shallow embedding of the orbital-velocity display line (src/app.py
line 131): `f"**Orbital Velocity**: {orbital_velocity:.2f} m/s" if
orbital_velocity else "Unavailable"`.  `None` and a present `0.0` are
falsy; a NaN is truthy and renders as "nan". -/
noncomputable def display_orbital_velocity (ov : Option PyFloat) : String :=
  match ov with
  | none => "Unavailable"
  | some PyFloat.nan => "**Orbital Velocity**: nan m/s"
  | some (PyFloat.val x) =>
      if x = 0 then "Unavailable"
      else "**Orbital Velocity**: " ++ fmt2f x ++ " m/s"

/-- Escape velocity as the spec's words state it in claim C1:
`sqrt(2 * G * mass / radius)` with `radius` the body's surface mean
radius. -/
noncomputable def spec_escape_velocity (mass radius : ℝ) : ℝ :=
  Real.sqrt (2 * G * mass / radius)

/-- Whether a calculator result has all four outputs present. -/
def allPresent : Except Unit (Option PyFloat × Option PyFloat × Option PyFloat × Option PyFloat) →
    Bool
  | Except.ok (some _, some _, some _, some _) => true
  | _ => false

/-- G is positive. -/
theorem G_pos : 0 < G := by unfold G; norm_num

/-- Evaluation of the calculator when the periapsis distance vanishes:
the `r == 0` early return yields all four outputs `None`. -/
theorem calc_r_zero (m a e : ℝ) (hr : a * (1 - e) = 0) :
    calculate_orbital_parameters (some m) (some a) e =
      Except.ok (none, none, none, none) := by
  simp [calculate_orbital_parameters, hr]

/-- Evaluation of the calculator when `r ≠ 0` but `GM = 0`: the orbital
period line divides by zero and the call raises. -/
theorem calc_gm_zero (m a e : ℝ) (hr : a * (1 - e) ≠ 0) (hGM : G * m = 0) :
    calculate_orbital_parameters (some m) (some a) e = Except.error () := by
  simp [calculate_orbital_parameters, hr, hGM]

/-- Evaluation of the calculator in the generic case `r ≠ 0`, `GM ≠ 0`:
all four outputs are returned, built from `npSqrt` and the NaN-aware
arithmetic. -/
theorem calc_eq_of (m a e : ℝ) (hr : a * (1 - e) ≠ 0) (hGM : G * m ≠ 0) :
    calculate_orbital_parameters (some m) (some a) e =
      Except.ok
        (some (npSqrt (G * m / (a * (1 - e)))),
         some (pfDiv (pfSq (npSqrt (G * m / (a * (1 - e))))) (a * (1 - e))),
         some (npSqrt (2 * (G * m) / (a * (1 - e)))),
         some (pfScale (2 * Real.pi) (npSqrt (a ^ 3 / (G * m))))) := by
  simp [calculate_orbital_parameters, hr, hGM]

/-- Claim C2 (code_bug evidence): with mass 1, semi-major axis 1 and
eccentricity 2 (so `eccentricity ≥ 1` and `r = -1 ≤ 0`), the calculator
does not make the orbital velocity absent: it returns a present NaN
(`np.sqrt` of the negative radicand `G·1 / (-1)`), likewise for the
centripetal and escape components, while the orbital period comes out
finite. -/
theorem C2_ecc_above_one_returns_nan :
    calculate_orbital_parameters (some 1) (some 1) 2 =
      Except.ok (some PyFloat.nan, some PyFloat.nan, some PyFloat.nan,
                 some (PyFloat.val (2 * Real.pi * Real.sqrt (1 / G)))) := by
  have hG := G_pos
  rw [calc_eq_of 1 1 2 (by norm_num) (by simpa using hG.ne')]
  have h1 : G * 1 / (1 * (1 - 2)) = -G := by ring
  have h2 : 2 * (G * 1) / (1 * (1 - 2)) = -(2 * G) := by ring
  have h3 : (1 : ℝ) ^ 3 / (G * 1) = 1 / G := by ring
  rw [h1, h2, h3]
  simp only [npSqrt, if_pos (by linarith : -G < 0),
    if_pos (by linarith : -(2 * G) < 0),
    if_neg (not_lt.mpr (by positivity : (0 : ℝ) ≤ 1 / G))]
  simp [pfSq, pfDiv, pfScale]

/-- Claim C8 (code_bug evidence): with a present zero mass, semi-major
axis 1 and eccentricity 0, the calculator raises (the pure-Python
division `semi_major_axis**3 / GM` hits `GM == 0.0`), instead of
returning the affected outputs absent. -/
theorem C8_zero_mass_raises :
    calculate_orbital_parameters (some 0) (some 1) 0 = Except.error () := by
  exact calc_gm_zero 0 1 0 (by norm_num) (by ring)

/-- Claim C4 (counterexample): with mass 1 (positive, present) and
semi-major axis 1 (present) but eccentricity 1, the orbital period is
returned absent even though its own preconditions (mass > 0,
semi-major axis present) hold — the `r == 0` early return voids every
output, so outputs are not computed independently. -/
theorem C4_period_voided_by_r_zero :
    calculate_orbital_parameters (some 1) (some 1) 1 =
      Except.ok (none, none, none, none) := by
  exact calc_r_zero 1 1 1 (by norm_num)

/-- Claim C4 (amended): the calculator is all-or-nothing, not
field-independent: when mass or semi-major axis is absent or
`r = a·(1-e) = 0`, all four outputs are absent together; when `r ≠ 0`
and `G·mass ≠ 0`, all four outputs are present together. -/
theorem C4_all_or_nothing (m a e : ℝ) :
    (a * (1 - e) = 0 →
      calculate_orbital_parameters (some m) (some a) e =
        Except.ok (none, none, none, none)) ∧
    (a * (1 - e) ≠ 0 → G * m ≠ 0 →
      allPresent (calculate_orbital_parameters (some m) (some a) e) = true) := by
  constructor
  · exact calc_r_zero m a e
  · intro hr hGM
    rw [calc_eq_of m a e hr hGM]
    rfl

/-- Claim C4 (witness for the amended theorem at concrete inputs). -/
theorem C4_all_or_nothing_witness :
    calculate_orbital_parameters (some 1) (some 1) 1 =
      Except.ok (none, none, none, none) ∧
    allPresent (calculate_orbital_parameters (some 1) (some 1) 0) = true :=
  ⟨(C4_all_or_nothing 1 1 1).1 (by norm_num),
   (C4_all_or_nothing 1 1 0).2 (by norm_num) (by simpa using G_pos.ne')⟩

/-- Claim C1 (counterexample): with mass 1, semi-major axis 2,
eccentricity 0 and a surface mean radius of 1 (all present and
positive), the calculator returns escape velocity `sqrt(G)` — computed
from the orbital distance `r = 2·(1-0)` — which differs from the
claimed `sqrt(2·G·mass / radius) = sqrt(2·G)` at the surface radius. -/
theorem C1_escape_ignores_surface_radius :
    evOf (calculate_orbital_parameters (some 1) (some 2) 0) =
      some (PyFloat.val (Real.sqrt G)) ∧
    Real.sqrt G ≠ spec_escape_velocity 1 1 := by
  constructor
  · rw [calc_eq_of 1 2 0 (by norm_num) (by simpa using G_pos.ne')]
    simp only [evOf]
    have harg : 2 * (G * 1) / (2 * (1 - 0)) = G := by ring
    rw [harg]
    simp only [npSqrt, if_neg (not_lt.mpr G_pos.le)]
  · unfold spec_escape_velocity
    have harg : 2 * G * 1 / 1 = 2 * G := by ring
    rw [harg]
    exact ne_of_lt (Real.sqrt_lt_sqrt G_pos.le (by linarith [G_pos]))

/-- Claim C1 (amended): the calculator never sees the body's surface
radius; its escape velocity is evaluated at the orbital distance
`r = semi_major_axis·(1 - eccentricity)`: for present mass > 0 and
`r > 0` it returns `sqrt(2·G·mass / r)`. -/
theorem C1_escape_at_orbital_distance (m a e : ℝ) (hm : 0 < m)
    (hr : 0 < a * (1 - e)) :
    evOf (calculate_orbital_parameters (some m) (some a) e) =
      some (PyFloat.val (Real.sqrt (2 * G * m / (a * (1 - e))))) := by
  rw [calc_eq_of m a e hr.ne' (mul_pos G_pos hm).ne']
  simp only [evOf]
  have hGm : 0 < G * m := mul_pos G_pos hm
  have hnn : 0 ≤ 2 * (G * m) / (a * (1 - e)) :=
    div_nonneg (by linarith) hr.le
  simp only [npSqrt, if_neg (not_lt.mpr hnn)]
  rw [← mul_assoc]

/-- Claim C1 (witness for the amended theorem): mass 1, semi-major
axis 1, eccentricity 0. -/
theorem C1_escape_at_orbital_distance_witness :
    evOf (calculate_orbital_parameters (some 1) (some 1) 0) =
      some (PyFloat.val (Real.sqrt (2 * G * 1 / (1 * (1 - 0))))) :=
  C1_escape_at_orbital_distance 1 1 0 (by norm_num) (by norm_num)

/-- Claim C6 (counterexample): with present mass `-1` and semi-major
axis 1, eccentricity 0 (so `r = 1 > 0`), the calculator returns a
present NaN orbital velocity, not the real number
`sqrt(G·mass / r)`. -/
theorem C6_negative_mass_gives_nan :
    calculate_orbital_parameters (some (-1)) (some 1) 0 =
      Except.ok (some PyFloat.nan, some PyFloat.nan, some PyFloat.nan,
                 some PyFloat.nan) ∧
    PyFloat.nan ≠ PyFloat.val (Real.sqrt (G * (-1) / (1 * (1 - 0)))) := by
  have hG := G_pos
  constructor
  · rw [calc_eq_of (-1) 1 0 (by norm_num) (by simp [hG.ne'])]
    have h1 : G * (-1) / (1 * (1 - 0)) = -G := by ring
    have h2 : 2 * (G * (-1)) / (1 * (1 - 0)) = -(2 * G) := by ring
    have h3 : (1 : ℝ) ^ 3 / (G * (-1)) = -(1 / G) := by ring
    rw [h1, h2, h3]
    simp only [npSqrt, if_pos (by linarith : -G < 0),
      if_pos (by linarith : -(2 * G) < 0),
      if_pos (by simp [hG] : -(1 / G) < 0)]
    simp [pfSq, pfDiv, pfScale]
  · simp

/-- Claim C6 (amended): for present mass > 0 and present semi-major
axis with `r = a·(1-e) > 0`, the orbital velocity is
`sqrt(G·mass / r)`, the vis-viva speed at periapsis. -/
theorem C6_orbital_velocity_formula (m a e : ℝ) (hm : 0 < m)
    (hr : 0 < a * (1 - e)) :
    ovOf (calculate_orbital_parameters (some m) (some a) e) =
      some (PyFloat.val (Real.sqrt (G * m / (a * (1 - e))))) := by
  rw [calc_eq_of m a e hr.ne' (mul_pos G_pos hm).ne']
  simp only [ovOf]
  have hGm : 0 < G * m := mul_pos G_pos hm
  have hnn : 0 ≤ G * m / (a * (1 - e)) := div_nonneg hGm.le hr.le
  simp only [npSqrt, if_neg (not_lt.mpr hnn)]

/-- Claim C6 (witness for the amended theorem): mass 1, semi-major
axis 1, eccentricity 0. -/
theorem C6_orbital_velocity_formula_witness :
    ovOf (calculate_orbital_parameters (some 1) (some 1) 0) =
      some (PyFloat.val (Real.sqrt (G * 1 / (1 * (1 - 0))))) :=
  C6_orbital_velocity_formula 1 1 0 (by norm_num) (by norm_num)

/-- Claim C7 (counterexample): with present mass 1 > 0 and present
semi-major axis 1 but eccentricity 1, the orbital period is absent
(the `r == 0` early return), not the Kepler value
`2π·sqrt(a³/(G·mass))`. -/
theorem C7_period_absent_at_ecc_one :
    opOf (calculate_orbital_parameters (some 1) (some 1) 1) = none ∧
    (none : Option PyFloat) ≠
      some (PyFloat.val (2 * Real.pi * Real.sqrt (1 ^ 3 / (G * 1)))) := by
  constructor
  · rw [calc_r_zero 1 1 1 (by norm_num)]
    rfl
  · simp

/-- Claim C7 (amended): for present mass > 0, present semi-major
axis > 0 and eccentricity ≠ 1 (so the `r == 0` early return is not
taken), the orbital period is `2π·sqrt(a³/(G·mass))`. -/
theorem C7_period_formula (m a e : ℝ) (hm : 0 < m) (ha : 0 < a)
    (he : e ≠ 1) :
    opOf (calculate_orbital_parameters (some m) (some a) e) =
      some (PyFloat.val (2 * Real.pi * Real.sqrt (a ^ 3 / (G * m)))) := by
  have hr : a * (1 - e) ≠ 0 :=
    mul_ne_zero ha.ne' (sub_ne_zero.mpr (Ne.symm he))
  have hGm : 0 < G * m := mul_pos G_pos hm
  rw [calc_eq_of m a e hr hGm.ne']
  simp only [opOf]
  have hnn : 0 ≤ a ^ 3 / (G * m) := div_nonneg (by positivity) hGm.le
  simp only [npSqrt, if_neg (not_lt.mpr hnn)]
  rfl

/-- Claim C7 (witness for the amended theorem): mass 1, semi-major
axis 1, eccentricity 0. -/
theorem C7_period_formula_witness :
    opOf (calculate_orbital_parameters (some 1) (some 1) 0) =
      some (PyFloat.val (2 * Real.pi * Real.sqrt (1 ^ 3 / (G * 1)))) :=
  C7_period_formula 1 1 0 (by norm_num) (by norm_num) (by norm_num)

/-- Claim C10: whenever the calculator returns all four outputs
present and the periapsis distance `r = a·(1-e)` is positive, the
escape velocity is `sqrt(2)` times the orbital velocity and the
centripetal acceleration is `orbital_velocity² / r` (NaN inputs
propagate to NaN on both sides). -/
theorem C10_algebraic_relations (m a e : ℝ) (ov ca ev op : PyFloat)
    (h : calculate_orbital_parameters (some m) (some a) e =
         Except.ok (some ov, some ca, some ev, some op))
    (hr : 0 < a * (1 - e)) :
    ev = pfScale (Real.sqrt 2) ov ∧ ca = pfDiv (pfSq ov) (a * (1 - e)) := by
  by_cases hGM : G * m = 0
  · rw [calc_gm_zero m a e hr.ne' hGM] at h
    exact absurd h (by simp)
  · rw [calc_eq_of m a e hr.ne' hGM] at h
    simp only [Except.ok.injEq, Prod.mk.injEq, Option.some.injEq] at h
    obtain ⟨hov, hca, hev, hop⟩ := h
    subst hov hca hev hop
    refine ⟨?_, rfl⟩
    by_cases hneg : G * m / (a * (1 - e)) < 0
    · have h2 : 2 * (G * m) / (a * (1 - e)) < 0 := by
        rw [mul_div_assoc]
        exact mul_neg_of_pos_of_neg two_pos hneg
      simp only [npSqrt, if_pos hneg, if_pos h2]
      rfl
    · push_neg at hneg
      have h2 : 0 ≤ 2 * (G * m) / (a * (1 - e)) := by
        rw [mul_div_assoc]
        exact mul_nonneg (by norm_num) hneg
      simp only [npSqrt, if_neg (not_lt.mpr h2), if_neg (not_lt.mpr hneg)]
      simp only [pfScale]
      rw [mul_div_assoc, Real.sqrt_mul (by norm_num : (0 : ℝ) ≤ 2)]

/-- Claim C10 (witness): the relations at mass 1, semi-major axis 1,
eccentricity 0. -/
theorem C10_algebraic_relations_witness :
    npSqrt (2 * (G * 1) / (1 * (1 - 0))) =
      pfScale (Real.sqrt 2) (npSqrt (G * 1 / (1 * (1 - 0)))) ∧
    pfDiv (pfSq (npSqrt (G * 1 / (1 * (1 - 0))))) (1 * (1 - 0)) =
      pfDiv (pfSq (npSqrt (G * 1 / (1 * (1 - 0))))) (1 * (1 - 0)) :=
  C10_algebraic_relations 1 1 0 _ _ _ _
    (calc_eq_of 1 1 0 (by norm_num) (by simpa using G_pos.ne'))
    (by norm_num)

/-- Claim C3 (counterexample): a Solar System record with no `a` field
does not get an absent semi-major axis: the code substitutes the
default string "1.0" and converts, producing the present nonzero value
`1.496e11` m. -/
theorem C3_missing_field_coerced_to_default :
    (normalize_solar ⟨none, none, none⟩).2.1 = 1.496e11 ∧
    (1.496e11 : ℝ) ≠ 0 := by
  constructor
  · simp [normalize_solar]
    norm_num
  · norm_num

/-- Claim C3 (amended): only the mass propagates absence (a record
without a GM key yields mass `None`); every other field is coerced to
a default rather than left absent — a missing `a` or `e` becomes
1.496e11 m or 0.0 in the Solar System branch, and missing
`pl_orbsmax`, `pl_bmassj`, `pl_orbeccen` become 1.496e11 m,
1.898e27 kg and 0.0 in the Exoplanets branch. -/
theorem C3_absence_handling (raw : SolarRaw) (rexo : ExoRaw) :
    (raw.GM = none → (normalize_solar raw).1 = none) ∧
    (raw.a = none → (normalize_solar raw).2.1 = 1.496e11) ∧
    (raw.e = none → (normalize_solar raw).2.2 = 0) ∧
    (rexo.pl_orbsmax = none → (normalize_exo rexo).1 = 1.496e11) ∧
    (rexo.pl_bmassj = none → (normalize_exo rexo).2.1 = 1.898e27) ∧
    (rexo.pl_orbeccen = none → (normalize_exo rexo).2.2 = 0) := by
  refine ⟨?_, ?_, ?_, ?_, ?_, ?_⟩ <;> intro h <;>
    simp [normalize_solar, normalize_exo, h] <;> norm_num

/-- Claim C3 (witness for the amended theorem at fully-absent raw
records). -/
theorem C3_absence_handling_witness :
    (normalize_solar ⟨none, none, none⟩).1 = none ∧
    (normalize_solar ⟨none, none, none⟩).2.1 = 1.496e11 ∧
    (normalize_solar ⟨none, none, none⟩).2.2 = 0 ∧
    (normalize_exo ⟨none, none, none⟩).1 = 1.496e11 ∧
    (normalize_exo ⟨none, none, none⟩).2.1 = 1.898e27 ∧
    (normalize_exo ⟨none, none, none⟩).2.2 = 0 := by
  obtain ⟨h1, h2, h3, h4, h5, h6⟩ :=
    C3_absence_handling ⟨none, none, none⟩ ⟨none, none, none⟩
  exact ⟨h1 rfl, h2 rfl, h3 rfl, h4 rfl, h5 rfl, h6 rfl⟩

/-- Claim C5: for present mass > 0 and present nonzero radius, the
(spec-modelled) surface gravity is present and equals
`G·mass / radius²`. -/
theorem C5_surface_gravity_formula (m rad : ℝ) (_hm : 0 < m)
    (hrad : rad ≠ 0) :
    surface_gravity (some m) (some rad) = some (G * m / rad ^ 2) := by
  simp [surface_gravity, hrad]

/-- Claim C5 (witness): the Earth scenario, mass 5.972e24 kg and
radius 6.371e6 m, gives a present surface gravity `G·m / rad²`, and
that value is approximately 9.82 m/s². -/
theorem C5_surface_gravity_formula_witness :
    surface_gravity (some 5.972e24) (some 6.371e6) =
      some (G * 5.972e24 / 6.371e6 ^ 2) ∧
    9.81 < G * 5.972e24 / 6.371e6 ^ 2 ∧
    G * 5.972e24 / 6.371e6 ^ 2 < 9.83 :=
  ⟨C5_surface_gravity_formula 5.972e24 6.371e6 (by norm_num) (by norm_num),
   by unfold G; norm_num, by unfold G; norm_num⟩

/-- Claim C9 (counterexample): the display layer renders an absent
mass as "Mass unavailable", a string that does not end in
"Unknown". -/
theorem C9_absent_is_not_unknown :
    display_mass none = "Mass unavailable" ∧
    ¬ "Unknown".data <:+ "Mass unavailable".data :=
  ⟨rfl, by decide⟩

/-- Claim C9 (amended): an absent value renders as a fixed fallback
string with no unit — "Mass unavailable" for the mass line and
"Unavailable" for the derived-quantity lines — not as a string ending
in "Unknown". -/
theorem C9_absent_display_fallback :
    display_mass none = "Mass unavailable" ∧
    display_orbital_velocity none = "Unavailable" :=
  ⟨rfl, rfl⟩
